import Mathlib

/-!
Verification of the openmemory dual-store coordination layer.

The development shallowly embeds the coordinator logic of the two transport
front-ends (`src/apps/server/src/main.rs`, the HTTP/MCP JSON handler, and
`src/apps/server/src/mcp.rs`, the stdio JSON-RPC server).

Modelling conventions:
- `Uuid` record identifiers are modelled as `Nat` (the code only ever
  generates ids, converts them to strings and parses them back, and compares
  them for equality; parsing a generated id always succeeds).
- `chrono::DateTime<Utc>` timestamps are modelled as `Int` unix seconds
  (`Duration::num_seconds` is exact on whole-second instants, and the
  RFC 3339 string round-trip used by the document store is faithful).
- Rust `f32` arithmetic is idealised over `ℝ`.
- PostgreSQL (index store) is a list of `MemoryIndex` rows, OpenSearch
  (document store) a list of `MemoryDocument` documents; Redis is an
  association list.  Each fallible external call gets an explicit boolean
  outcome parameter, so an operation is a pure function of the store state
  and the outcome of each call the code makes, in the code's call order.
-/

namespace OpenMemory

/-- Unix timestamp in whole seconds, modelling `chrono::DateTime<Utc>`. -/
abbrev Timestamp := Int

/-- PostgreSQL index row, from `struct MemoryIndex` (main.rs:24-33, mcp.rs:36-45). -/
structure MemoryIndex where
  id : Nat
  user_id : Option String
  summary : Option String
  importance_score : ℝ
  tags : List String
  created_at : Timestamp
  updated_at : Timestamp

/-- OpenSearch document, from `struct MemoryDocument` (main.rs:36-46, mcp.rs:48-58). -/
structure MemoryDocument where
  id : Nat
  user_id : Option String
  content : String
  summary : Option String
  importance_score : ℝ
  tags : List String
  created_at : Timestamp
  updated_at : Timestamp

/-- Combined search result, from `struct SearchResult` (main.rs:367-376, mcp.rs:60-69). -/
structure SearchResult where
  id : Nat
  content : String
  summary : Option String
  tags : List String
  importance_score : ℝ
  created_at : Timestamp
  score : ℝ

/-- Merged record, from `struct FullMemory` (main.rs:379-389). -/
structure FullMemory where
  id : Nat
  user_id : Option String
  content : String
  summary : Option String
  importance_score : ℝ
  tags : List String
  created_at : Timestamp
  updated_at : Timestamp

/-- Joint state of the two stores: `pg` is the PostgreSQL `memory_index`
table, `os` the OpenSearch `memories` index. -/
structure DualStore where
  pg : List MemoryIndex
  os : List MemoryDocument

/-- Outcomes of the external calls a Save makes, in call order:
the PostgreSQL `INSERT`, the OpenSearch `PUT _doc`, and (only reached on
document-write failure) the compensating PostgreSQL `DELETE`. -/
structure SaveOutcome where
  pgInsertOk : Bool
  osWriteOk : Bool
  pgDeleteOk : Bool

/-- Save error surfaced to the caller (main.rs:555-561 and 575-586). -/
inductive SaveError where
  | indexWriteFailed
  | contentWriteFailed

/-- Outcomes of the external calls an Update makes, in call order:
the PostgreSQL `UPDATE`, the OpenSearch `GET _doc`, and the OpenSearch
`PUT _doc` mirror write. -/
structure UpdateOutcome where
  pgUpdateOk : Bool
  osGetOk : Bool
  osWriteOk : Bool

/-- Update error surfaced to the caller (main.rs:874-889). -/
inductive UpdateError where
  | notFound
  | storeFailure

/-- OpenSearch `PUT /{index}/_doc/{id}`, from `OpenSearchClient::index_document`
(main.rs:117-132): replaces the document with the same id, or creates it. -/
def osUpsert (doc : MemoryDocument) (os : List MemoryDocument) : List MemoryDocument :=
  if os.any (fun d => d.id == doc.id) then
    os.map (fun d => if d.id == doc.id then doc else d)
  else
    doc :: os

namespace Main

/-- From `fn clamp01` (main.rs:966-968): `v.clamp(0.0, 1.0)`.
Rust `clamp(v, lo, hi)` is `max lo (min v hi)`. -/
noncomputable def clamp01 (v : ℝ) : ℝ :=
  max 0 (min v 1)

/-- From `fn recency_score` (main.rs:960-964).  The caller-side `Utc::now()`
is the explicit `now` argument. -/
noncomputable def recency_score (now created_at : Timestamp) : ℝ :=
  let age_days : ℝ := ((max (now - created_at) 0 : ℤ) : ℝ) / (60 * 60 * 24)
  max 0 (min (Real.exp (-age_days / 30)) 1)

/-- From `fn compute_combined_score` (main.rs:954-958). -/
noncomputable def compute_combined_score (importance : ℝ) (now created_at : Timestamp) : ℝ :=
  let recency := recency_score now created_at
  importance * 0.6 + recency * 0.4

/-- Fields of the `McpRequest::MemorySave` variant (main.rs:256-267). -/
structure MemorySaveRequest where
  content : String
  summary : Option String
  importance : Option ℝ
  tags : Option (List String)
  user_id : Option String

/-- Fields of the `McpRequest::MemoryUpdate` variant (main.rs:293-304). -/
structure MemoryUpdateRequest where
  id : Nat
  content : Option String
  summary : Option String
  importance : Option ℝ
  tags : Option (List String)

/-- Fields of the `McpRequest::MemorySearch` variant (main.rs:269-276). -/
structure MemorySearchRequest where
  query : String
  limit : Option Nat
  user_id : Option String

/-- Body of the `memory.search.result` response (main.rs:321-325). -/
structure SearchResponse where
  query : String
  results : List SearchResult

/-- The `MemorySave` arm of `fn mcp` (main.rs:527-592).  `id` is the fresh
`Uuid::new_v4()` and `now` the single captured `Utc::now()`.  On index-insert
failure nothing is written; on document-write failure the just-inserted index
row is deleted best-effort (`let _ = ...`) and an error is returned. -/
noncomputable def memory_save (o : SaveOutcome) (st : DualStore) (req : MemorySaveRequest)
    (id : Nat) (now : Timestamp) : Except SaveError (Nat × Timestamp) × DualStore :=
  let importance_score := clamp01 (req.importance.getD 0.5)
  let tags := req.tags.getD []
  if o.pgInsertOk = false then
    (.error .indexWriteFailed, st)
  else
    let entry : MemoryIndex :=
      ⟨id, req.user_id, req.summary, importance_score, tags, now, now⟩
    let stInserted : DualStore := ⟨entry :: st.pg, st.os⟩
    let doc : MemoryDocument :=
      ⟨id, req.user_id, req.content, req.summary, importance_score, tags, now, now⟩
    if o.osWriteOk = true then
      (.ok (id, now), ⟨stInserted.pg, osUpsert doc stInserted.os⟩)
    else
      let pgAfter :=
        if o.pgDeleteOk = true then
          stInserted.pg.filter (fun e => decide (e.id ≠ id))
        else
          stInserted.pg
      (.error .contentWriteFailed, ⟨pgAfter, stInserted.os⟩)

/-- The `MemoryGet` arm of `fn mcp` (main.rs:820-851).  A failed document
lookup is flattened to `none` (`.ok().flatten()`), a failed index lookup
likewise (`.unwrap_or(None)`); a merged `FullMemory` is built only when both
lookups return data. -/
def memory_get (osGetOk pgGetOk : Bool) (st : DualStore) (id : Nat) : Option FullMemory :=
  let doc := if osGetOk then st.os.find? (fun d => d.id == id) else none
  let index := if pgGetOk then st.pg.find? (fun e => e.id == id) else none
  match doc, index with
  | some d, some i =>
      some ⟨i.id, i.user_id, d.content, i.summary, i.importance_score, i.tags,
        i.created_at, i.updated_at⟩
  | _, _ => none

/-- SQL `COALESCE($param, column)` merge used by the update (main.rs:864):
a supplied value wins, an absent parameter keeps the stored value. -/
def coalesce (new old : Option String) : Option String :=
  match new with
  | some s => some s
  | none => old

/-- The `MemoryUpdate` arm of `fn mcp` (main.rs:853-916).  The index row is
updated with merge-on-absence (`COALESCE`) semantics and a refreshed
`updated_at`; zero affected rows surface as not-found; the document-store
mirror (fetch, field-level merge, upsert) is best-effort and its failure is
only logged. -/
noncomputable def memory_update (o : UpdateOutcome) (st : DualStore)
    (req : MemoryUpdateRequest) (now : Timestamp) :
    Except UpdateError (Nat × Timestamp) × DualStore :=
  if o.pgUpdateOk = false then
    (.error .storeFailure, st)
  else if st.pg.countP (fun e => e.id == req.id) = 0 then
    (.error .notFound, st)
  else
    let pgAfter := st.pg.map (fun e =>
      if e.id == req.id then
        { e with
          updated_at := now,
          summary := coalesce req.summary e.summary,
          importance_score := (req.importance.map clamp01).getD e.importance_score,
          tags := req.tags.getD e.tags }
      else e)
    let stIndexed : DualStore := ⟨pgAfter, st.os⟩
    match (if o.osGetOk then stIndexed.os.find? (fun d => d.id == req.id) else none) with
    | some doc =>
        let docMerged : MemoryDocument :=
          { doc with
            content := req.content.getD doc.content,
            summary := coalesce req.summary doc.summary,
            importance_score := (req.importance.map clamp01).getD doc.importance_score,
            tags := req.tags.getD doc.tags,
            updated_at := now }
        if o.osWriteOk = true then
          (.ok (req.id, now), ⟨pgAfter, osUpsert docMerged stIndexed.os⟩)
        else
          (.ok (req.id, now), stIndexed)
    | none => (.ok (req.id, now), stIndexed)

/-- Responses of the two read queries a Search issues, as oracles:
`osResult` is the OpenSearch `search(query, user_id, limit*2)` response
(`none` models a failed call, turned into `[]` by `unwrap_or_default`),
`pgResult` the PostgreSQL batch lookup for the candidate ids (likewise),
and `now` the `Utc::now()` instant of the operation. -/
structure SearchEnv where
  osResult : Option (List MemoryDocument)
  pgResult : Option (List MemoryIndex)
  now : Timestamp

/-- Candidate scoring step of the `MemorySearch` arm (main.rs:630-667):
each document is joined with its index row by id; missing metadata falls
back to importance 0.5 and `created_at = now`. -/
noncomputable def score_results (env : SearchEnv) : List SearchResult :=
  let docs := env.osResult.getD []
  let index_data := if docs.isEmpty then [] else env.pgResult.getD []
  docs.map (fun doc =>
    let index := index_data.find? (fun i => i.id == doc.id)
    let importance := (index.map (fun i => i.importance_score)).getD 0.5
    let created_at := (index.map (fun i => i.created_at)).getD env.now
    ⟨doc.id, doc.content, doc.summary, doc.tags, importance, created_at,
      compute_combined_score importance env.now created_at⟩)

/-- The comparator of main.rs:669,
`|a, b| b.score.partial_cmp(&a.score).unwrap_or(Ordering::Equal)`, as the
"a may precede b" relation of a stable sort: `a` precedes `b` when the
comparator does not answer `Greater`, i.e. when `b.score ≤ a.score`. -/
noncomputable def resultLe (a b : SearchResult) : Bool :=
  decide (b.score ≤ a.score)

/-- Sort-and-truncate step of the `MemorySearch` arm (main.rs:669-670):
a stable sort by combined score descending, then `truncate(limit)`. -/
noncomputable def rank_truncate (limit : Nat) (results : List SearchResult) :
    List SearchResult :=
  (results.mergeSort resultLe).take limit

/-- Limit normalization of main.rs:599: `limit.unwrap_or(5).clamp(1, 50)`;
Rust `clamp(v, lo, hi)` is `max lo (min v hi)`, here written `min (max v 1) 50`
(equal on `lo ≤ hi`). -/
def clampedLimit (limit0 : Option Nat) : Nat :=
  min (max (limit0.getD 5) 1) 50

/-- Redis cache contents: entries `(key, cached results, ttl seconds)`.
The stored string value is modelled already deserialized; an unparseable or
unreadable value is modelled by the read-outcome oracle being `false`. -/
abbrev CacheState := List (String × List SearchResult × Nat)

/-- Cache key of main.rs:602-607:
`format!("search:{}:{}:{}", user_id.as_deref().unwrap_or("*"), query, limit)`. -/
def cache_key (user_id : Option String) (query : String) (limit : Nat) : String :=
  "search:" ++ user_id.getD "*" ++ ":" ++ query ++ ":" ++ toString limit

/-- Redis `GET` of a cached search result. -/
def cacheLookup (c : CacheState) (key : String) : Option (List SearchResult) :=
  (c.find? (fun e => e.1 == key)).map (fun e => e.2.1)

/-- Redis `SET ... EX ttl` (main.rs:675): stores the serialized results
under the key with the given time-to-live. -/
def cacheSet (c : CacheState) (key : String) (value : List SearchResult) (ttl : Nat) :
    CacheState :=
  (key, value, ttl) :: c.filter (fun e => !(e.1 == key))

/-- The `MemorySearch` arm of `fn mcp` (main.rs:594-683).  `cacheGetOk` is
true when the Redis `GET` succeeds and its value deserializes; `cacheSetOk`
when the best-effort `SET` succeeds; `cache = none` models running without
Redis.  A cache hit returns immediately; otherwise the result is computed
from the stores and cached with a 300-second TTL. -/
noncomputable def memory_search (cacheGetOk cacheSetOk : Bool) (cache : Option CacheState)
    (env : SearchEnv) (req : MemorySearchRequest) : SearchResponse × Option CacheState :=
  let limit := clampedLimit req.limit
  let key := cache_key req.user_id req.query limit
  match cache with
  | some c =>
    match (if cacheGetOk then cacheLookup c key else none) with
    | some cached => (⟨req.query, cached⟩, some c)
    | none =>
        let results := rank_truncate limit (score_results env)
        let cAfter := if cacheSetOk then cacheSet c key results 300 else c
        (⟨req.query, results⟩, some cAfter)
  | none =>
      let results := rank_truncate limit (score_results env)
      (⟨req.query, results⟩, none)

end Main

namespace Mcp

/-- From `fn recency_score` (mcp.rs:470-474). -/
noncomputable def recency_score (now created_at : Timestamp) : ℝ :=
  let age_days : ℝ := ((max (now - created_at) 0 : ℤ) : ℝ) / (60 * 60 * 24)
  max 0 (min (Real.exp (-age_days / 30)) 1)

/-- From `fn compute_combined_score` (mcp.rs:465-468). -/
noncomputable def compute_combined_score (importance : ℝ) (now created_at : Timestamp) : ℝ :=
  let recency := recency_score now created_at
  importance * 0.6 + recency * 0.4

/-- Errors of `McpServer::memory_save` (mcp.rs:323-383): the missing-content
context error raised before any store call, the propagated PostgreSQL error,
and the propagated OpenSearch error after the rollback delete. -/
inductive McpError where
  | missingContent
  | pgFailure
  | osFailure

/-- From `McpServer::memory_save` (mcp.rs:323-383).  `content` is
`args["content"].as_str()`: `none` models an absent or non-string field and
is rejected (`.context("missing content")?`) before any store call.
Importance defaults to 0.5 and is clamped inline with
`importance.clamp(0.0, 1.0)`; `user_id` is always `None` on this front-end.
The dual write and the best-effort rollback mirror the HTTP front-end. -/
noncomputable def memory_save (o : SaveOutcome) (st : DualStore)
    (content : Option String) (summary : Option String) (importance : Option ℝ)
    (tags : Option (List String)) (id : Nat) (now : Timestamp) :
    Except McpError (Nat × Timestamp) × DualStore :=
  match content with
  | none => (.error .missingContent, st)
  | some c =>
    let importanceC := max 0 (min (importance.getD 0.5) 1)
    let tagList := tags.getD []
    if o.pgInsertOk = false then
      (.error .pgFailure, st)
    else
      let entry : MemoryIndex := ⟨id, none, summary, importanceC, tagList, now, now⟩
      let stInserted : DualStore := ⟨entry :: st.pg, st.os⟩
      let doc : MemoryDocument := ⟨id, none, c, summary, importanceC, tagList, now, now⟩
      if o.osWriteOk = true then
        (.ok (id, now), ⟨stInserted.pg, osUpsert doc stInserted.os⟩)
      else
        let pgAfter :=
          if o.pgDeleteOk = true then
            stInserted.pg.filter (fun e => decide (e.id ≠ id))
          else
            stInserted.pg
        (.error .osFailure, ⟨pgAfter, stInserted.os⟩)

end Mcp

/-- Age of a record in days: the non-negative elapsed seconds since
`created_at`, divided by 86400, exactly as `recency_score` computes it
(`age.num_seconds().max(0) as f32 / (60.0 * 60.0 * 24.0)`, main.rs:962). -/
noncomputable def age_days_of (now created_at : Timestamp) : ℝ :=
  ((max (now - created_at) 0 : ℤ) : ℝ) / (60 * 60 * 24)

/-- Recency as a function of the age in days, the core of `recency_score`
(main.rs:963): `(-age_days / 30.0).exp().clamp(0.0, 1.0)`. -/
noncomputable def recency_of_age_days (age_days : ℝ) : ℝ :=
  max 0 (min (Real.exp (-age_days / 30)) 1)

/-- The combined-score formula in the words of the spec (section 4.2 step 4):
`score = importance*0.6 + recency*0.4` with
`recency = clamp(exp(-ageDays/30), 0, 1)`.  Written independently of the
code's clamp orientation, for comparison with `compute_combined_score`. -/
noncomputable def spec_combined_score (importance : ℝ) (now created_at : Timestamp) : ℝ :=
  importance * 0.6 + min 1 (max 0 (Real.exp (-(age_days_of now created_at) / 30))) * 0.4

lemma clamp_0_1_comm (x : ℝ) : max 0 (min x 1) = min 1 (max 0 x) := by
  rw [min_max_distrib_left, min_comm x 1, min_eq_right zero_le_one]

lemma clamp_0_1_of_mem (x : ℝ) (h0 : 0 ≤ x) (h1 : x ≤ 1) : max 0 (min x 1) = x := by
  rw [min_eq_left h1, max_eq_right h0]

lemma age_days_of_nonneg (now created_at : Timestamp) : 0 ≤ age_days_of now created_at := by
  apply div_nonneg
  · exact_mod_cast le_max_right (now - created_at) 0
  · norm_num

/-- Claim C2: for every candidate with importance `i` and creation time `t`,
the combined score equals `i*0.6 + r*0.4` with
`r = clamp(exp(-ageDays/30), 0, 1)` and `ageDays` the non-negative elapsed
time since `t` in days (negative elapsed time is treated as 0). -/
theorem combined_score_formula (i : ℝ) (now t : Timestamp) :
    Main.compute_combined_score i now t = spec_combined_score i now t
    ∧ 0 ≤ age_days_of now t := by
  constructor
  · show i * 0.6 + (max 0 (min (Real.exp (-(age_days_of now t) / 30)) 1)) * 0.4
      = i * 0.6 + (min 1 (max 0 (Real.exp (-(age_days_of now t) / 30)))) * 0.4
    rw [clamp_0_1_comm]
  · exact age_days_of_nonneg now t

/-- Claim C5: the recency score is 1 at age 0, strictly decreasing in the
age, and tends to 0 as the age grows without bound; `recency_score` is
exactly this function of the (non-negative) age in days. -/
theorem recency_properties :
    (∀ now t, Main.recency_score now t = recency_of_age_days (age_days_of now t))
    ∧ recency_of_age_days 0 = 1
    ∧ (∀ a b : ℝ, 0 ≤ a → a < b → recency_of_age_days b < recency_of_age_days a)
    ∧ Filter.Tendsto recency_of_age_days Filter.atTop (nhds 0) := by
  refine ⟨fun _ _ => rfl, ?_, ?_, ?_⟩
  · show max 0 (min (Real.exp (-(0 : ℝ) / 30)) 1) = 1
    norm_num
  · intro a b ha hab
    have hb : (0 : ℝ) ≤ b := le_trans ha hab.le
    have hea : Real.exp (-a / 30) ≤ 1 := by
      rw [Real.exp_le_one_iff]
      linarith
    have heb : Real.exp (-b / 30) ≤ 1 := by
      rw [Real.exp_le_one_iff]
      linarith
    unfold recency_of_age_days
    rw [clamp_0_1_of_mem _ (Real.exp_nonneg _) hea, clamp_0_1_of_mem _ (Real.exp_nonneg _) heb]
    rw [Real.exp_lt_exp]
    linarith
  · apply squeeze_zero (g := fun d => Real.exp (-d / 30))
    · intro t
      exact le_max_left 0 _
    · intro t
      exact max_le (Real.exp_nonneg _) (min_le_left _ _)
    · have hdiv : Filter.Tendsto (fun d : ℝ => d / 30) Filter.atTop Filter.atTop :=
        Filter.tendsto_id.atTop_div_const (by norm_num)
      have hcomp := Real.tendsto_exp_neg_atTop_nhds_zero.comp hdiv
      refine hcomp.congr fun d => ?_
      simp [Function.comp, neg_div]

/-- Concrete instance of `recency_properties`: the recency score after 30
days is strictly below the recency score at age 0. -/
theorem recency_properties_witness :
    recency_of_age_days 30 < recency_of_age_days 0 :=
  recency_properties.2.2.1 0 30 (le_refl 0) (by norm_num)

/-- Claim C10: the scoring functions of the two transport front-ends agree
on every input. -/
theorem frontends_equal (i : ℝ) (now t : Timestamp) :
    Main.compute_combined_score i now t = Mcp.compute_combined_score i now t
    ∧ Main.recency_score now t = Mcp.recency_score now t :=
  ⟨rfl, rfl⟩

lemma clamp01_eq_min_max (v : ℝ) : Main.clamp01 v = min 1 (max 0 v) :=
  clamp_0_1_comm v

lemma mem_osUpsert {x doc : MemoryDocument} {os : List MemoryDocument}
    (h : x ∈ osUpsert doc os) : x = doc ∨ x ∈ os := by
  unfold osUpsert at h
  split at h
  · obtain ⟨y, hy, he⟩ := List.mem_map.mp h
    split at he
    · exact Or.inl he.symm
    · exact Or.inr (he ▸ hy)
  · rcases List.mem_cons.mp h with h | h
    · exact Or.inl h
    · exact Or.inr h

lemma mem_osUpsert_self (doc : MemoryDocument) (os : List MemoryDocument) :
    doc ∈ osUpsert doc os := by
  unfold osUpsert
  split
  · next hany =>
      obtain ⟨y, hy, hid⟩ := List.any_eq_true.mp hany
      exact List.mem_map.mpr ⟨y, hy, by simp [hid]⟩
  · exact List.mem_cons_self _ _

lemma memory_update_res (o : UpdateOutcome) (st : DualStore) (req : Main.MemoryUpdateRequest)
    (now : Timestamp) (h1 : o.pgUpdateOk = true)
    (h2 : st.pg.countP (fun e => e.id == req.id) ≠ 0) :
    (Main.memory_update o st req now).1 = .ok (req.id, now) := by
  unfold Main.memory_update
  rw [if_neg (by simp [h1]), if_neg h2]
  dsimp only
  repeat' split
  all_goals rfl

lemma memory_update_pg (o : UpdateOutcome) (st : DualStore) (req : Main.MemoryUpdateRequest)
    (now : Timestamp) (h1 : o.pgUpdateOk = true)
    (h2 : st.pg.countP (fun e => e.id == req.id) ≠ 0) :
    (Main.memory_update o st req now).2.pg
      = st.pg.map (fun e =>
          if e.id == req.id then
            { e with
              updated_at := now,
              summary := Main.coalesce req.summary e.summary,
              importance_score := (req.importance.map Main.clamp01).getD e.importance_score,
              tags := req.tags.getD e.tags }
          else e) := by
  unfold Main.memory_update
  rw [if_neg (by simp [h1]), if_neg h2]
  dsimp only
  repeat' split
  all_goals rfl

lemma memory_update_os_mem (o : UpdateOutcome) (st : DualStore) (req : Main.MemoryUpdateRequest)
    (now : Timestamp) (d : MemoryDocument)
    (hd : d ∈ (Main.memory_update o st req now).2.os) :
    d ∈ st.os ∨ ∃ doc, doc ∈ st.os ∧ d =
      { doc with
        content := req.content.getD doc.content,
        summary := Main.coalesce req.summary doc.summary,
        importance_score := (req.importance.map Main.clamp01).getD doc.importance_score,
        tags := req.tags.getD doc.tags,
        updated_at := now } := by
  unfold Main.memory_update at hd
  by_cases h1 : o.pgUpdateOk = false
  · rw [if_pos h1] at hd
    exact Or.inl hd
  rw [if_neg h1] at hd
  by_cases h2 : st.pg.countP (fun e => e.id == req.id) = 0
  · rw [if_pos h2] at hd
    exact Or.inl hd
  rw [if_neg h2] at hd
  dsimp only at hd
  rcases hb : o.osGetOk with _ | _
  · rw [hb] at hd
    simp only [Bool.false_eq_true, if_false] at hd
    exact Or.inl hd
  · rw [hb] at hd
    simp only [if_true] at hd
    rcases hfind : st.os.find? (fun x => x.id == req.id) with _ | doc
    · rw [hfind] at hd
      exact Or.inl hd
    · rw [hfind] at hd
      dsimp only at hd
      by_cases hw : o.osWriteOk = true
      · rw [if_pos hw] at hd
        rcases mem_osUpsert hd with h | h
        · exact Or.inr ⟨doc, List.mem_of_find?_eq_some hfind, h⟩
        · exact Or.inl h
      · rw [if_neg hw] at hd
        exact Or.inl hd

/-- Claim C7: Get returns a merged record exactly when both the document
lookup and the index lookup succeed and return data; in every other case the
result is absent, and the merged record draws content from the document and
every metadata field from the index row — never a partial record. -/
theorem get_merges_iff (osGetOk pgGetOk : Bool) (st : DualStore) (id : Nat) (m : FullMemory) :
    Main.memory_get osGetOk pgGetOk st id = some m ↔
      osGetOk = true ∧ pgGetOk = true ∧
      ∃ d i, st.os.find? (fun x => x.id == id) = some d
        ∧ st.pg.find? (fun x => x.id == id) = some i
        ∧ m = ⟨i.id, i.user_id, d.content, i.summary, i.importance_score, i.tags,
            i.created_at, i.updated_at⟩ := by
  unfold Main.memory_get
  cases osGetOk <;> cases pgGetOk
  · simp
  · simp
  · rcases hd : st.os.find? (fun x => x.id == id) with _ | d <;> simp [hd]
  · rcases hd : st.os.find? (fun x => x.id == id) with _ | d <;>
      rcases hi : st.pg.find? (fun x => x.id == id) with _ | i <;> simp [hd, hi]
    exact eq_comm

/-- Concrete instance of `get_merges_iff`: on a one-record store with both
lookups succeeding, Get returns the record merged from both stores. -/
theorem get_merges_iff_witness :
    Main.memory_get true true
      ⟨[⟨7, none, some "s", 0.5, ["t"], 3, 4⟩], [⟨7, none, "body", some "s", 0.5, ["t"], 3, 4⟩]⟩ 7
      = some ⟨7, none, "body", some "s", 0.5, ["t"], 3, 4⟩ :=
  (get_merges_iff true true
      ⟨[⟨7, none, some "s", 0.5, ["t"], 3, 4⟩], [⟨7, none, "body", some "s", 0.5, ["t"], 3, 4⟩]⟩ 7
      ⟨7, none, "body", some "s", 0.5, ["t"], 3, 4⟩).mpr
    ⟨rfl, rfl, ⟨7, none, "body", some "s", 0.5, ["t"], 3, 4⟩,
      ⟨7, none, some "s", 0.5, ["t"], 3, 4⟩, rfl, rfl, rfl⟩

/-- Claim C1 (amended): when the index insert succeeds and the document
write fails, Save returns an error, leaves the document store unchanged, a
subsequent Get on the id returns not-found, and — when the best-effort
compensating delete succeeds — no index row with the id remains. -/
theorem save_compensation (o : SaveOutcome) (st : DualStore) (req : Main.MemorySaveRequest)
    (id : Nat) (now : Timestamp) (h1 : o.pgInsertOk = true) (h2 : o.osWriteOk = false)
    (hfresh : st.os.find? (fun d => d.id == id) = none) :
    (Main.memory_save o st req id now).1 = .error .contentWriteFailed
    ∧ (Main.memory_save o st req id now).2.os = st.os
    ∧ (∀ osGetOk pgGetOk,
        Main.memory_get osGetOk pgGetOk (Main.memory_save o st req id now).2 id = none)
    ∧ (o.pgDeleteOk = true →
        (Main.memory_save o st req id now).2.pg.countP (fun e => e.id == id) = 0) := by
  unfold Main.memory_save
  rw [if_neg (by simp [h1]), if_neg (by simp [h2])]
  refine ⟨rfl, rfl, ?_, ?_⟩
  · intro osGetOk pgGetOk
    unfold Main.memory_get
    cases osGetOk
    · simp
    · simp [hfresh]
  · intro hdel
    rw [if_pos hdel, List.countP_eq_zero]
    intro e he
    have := List.mem_filter.mp he
    simpa using this.2

/-- Concrete instance of `save_compensation`: index insert succeeds, the
document write fails, the compensating delete succeeds. -/
theorem save_compensation_witness :
    (Main.memory_save ⟨true, false, true⟩ ⟨[], []⟩ ⟨"m", none, none, none, none⟩ 7 0).1
        = .error .contentWriteFailed
    ∧ (Main.memory_save ⟨true, false, true⟩ ⟨[], []⟩ ⟨"m", none, none, none, none⟩ 7 0).2.os = []
    ∧ (∀ osGetOk pgGetOk, Main.memory_get osGetOk pgGetOk
        (Main.memory_save ⟨true, false, true⟩ ⟨[], []⟩ ⟨"m", none, none, none, none⟩ 7 0).2 7
        = none)
    ∧ (true = true →
        (Main.memory_save ⟨true, false, true⟩ ⟨[], []⟩ ⟨"m", none, none, none, none⟩ 7 0).2.pg.countP
          (fun e => e.id == 7) = 0) :=
  save_compensation ⟨true, false, true⟩ ⟨[], []⟩ ⟨"m", none, none, none, none⟩ 7 0 rfl rfl rfl

/-- Claim C1 is false as universally stated: in a Save where the index
insert succeeds, the document write fails and the best-effort compensating
delete also fails, the operation errors but the just-written index row
remains retrievable. -/
theorem save_orphan_counterexample :
    (Main.memory_save ⟨true, false, false⟩ ⟨[], []⟩ ⟨"m", none, none, none, none⟩ 7 0).1
        = .error .contentWriteFailed
    ∧ (Main.memory_save ⟨true, false, false⟩ ⟨[], []⟩ ⟨"m", none, none, none, none⟩ 7 0).2.pg.countP
        (fun e => e.id == 7) = 1 :=
  ⟨rfl, rfl⟩

/-- Claim C3: the importance score actually stored by Save (in both stores)
and by Update (in the index store) is `min 1 (max 0 v)`; out-of-range inputs
are clamped, never rejected. -/
theorem importance_clamped (v : ℝ) :
    (∀ (o : SaveOutcome) (st : DualStore) (req : Main.MemorySaveRequest) (id : Nat)
        (now : Timestamp), o.pgInsertOk = true → o.osWriteOk = true →
        req.importance = some v →
        (Main.memory_save o st req id now).1 = .ok (id, now)
        ∧ (∃ e, e ∈ (Main.memory_save o st req id now).2.pg ∧ e.id = id
            ∧ e.importance_score = min 1 (max 0 v))
        ∧ (∃ d, d ∈ (Main.memory_save o st req id now).2.os ∧ d.id = id
            ∧ d.importance_score = min 1 (max 0 v)))
    ∧ (∀ (o : UpdateOutcome) (st : DualStore) (req : Main.MemoryUpdateRequest)
        (now : Timestamp), o.pgUpdateOk = true → req.importance = some v →
        ∀ e, e ∈ (Main.memory_update o st req now).2.pg → e.id = req.id →
          e.importance_score = min 1 (max 0 v)) := by
  constructor
  · intro o st req id now h1 h2 h3
    unfold Main.memory_save
    rw [if_neg (by simp [h1]), if_pos h2]
    refine ⟨rfl, ?_, ?_⟩
    · refine ⟨_, List.mem_cons_self _ _, rfl, ?_⟩
      show Main.clamp01 (req.importance.getD 0.5) = min 1 (max 0 v)
      rw [h3, Option.getD_some, clamp01_eq_min_max]
    · refine ⟨_, mem_osUpsert_self _ _, rfl, ?_⟩
      show Main.clamp01 (req.importance.getD 0.5) = min 1 (max 0 v)
      rw [h3, Option.getD_some, clamp01_eq_min_max]
  · intro o st req now h1 h3 e he hid
    by_cases h0 : st.pg.countP (fun x => x.id == req.id) = 0
    · unfold Main.memory_update at he
      rw [if_neg (by simp [h1]), if_pos h0] at he
      exact absurd (by simpa using hid) (List.countP_eq_zero.mp h0 e he)
    · rw [memory_update_pg o st req now h1 h0] at he
      obtain ⟨x, _, hx⟩ := List.mem_map.mp he
      split at hx
      · rw [← hx]
        show (req.importance.map Main.clamp01).getD x.importance_score = min 1 (max 0 v)
        rw [h3]
        exact clamp01_eq_min_max v
      · next hne =>
          rw [← hx] at hid
          exact absurd (by simpa using hid) hne

/-- Concrete instance of `importance_clamped`: saving with importance 2
stores importance `min 1 (max 0 2)` in both stores. -/
theorem importance_clamped_witness :
    (Main.memory_save ⟨true, true, true⟩ ⟨[], []⟩ ⟨"note", none, some 2, none, none⟩ 7 0).1
        = .ok (7, 0)
    ∧ (∃ e, e ∈ (Main.memory_save ⟨true, true, true⟩ ⟨[], []⟩
          ⟨"note", none, some 2, none, none⟩ 7 0).2.pg ∧ e.id = 7
        ∧ e.importance_score = min 1 (max 0 2))
    ∧ (∃ d, d ∈ (Main.memory_save ⟨true, true, true⟩ ⟨[], []⟩
          ⟨"note", none, some 2, none, none⟩ 7 0).2.os ∧ d.id = 7
        ∧ d.importance_score = min 1 (max 0 2)) :=
  (importance_clamped 2).1 ⟨true, true, true⟩ ⟨[], []⟩ ⟨"note", none, some 2, none, none⟩ 7 0
    rfl rfl rfl

/-- Claim C4 (amended): a Save whose content field is missing is rejected
with a validation error before any store call (the state is untouched and
the store-call outcomes are irrelevant); an empty content string is not
rejected. -/
theorem missing_content_rejected (o : SaveOutcome) (st : DualStore) (summary : Option String)
    (importance : Option ℝ) (tags : Option (List String)) (id : Nat) (now : Timestamp) :
    Mcp.memory_save o st none summary importance tags id now
      = (.error .missingContent, st) :=
  rfl

/-- Claim C4 is false as stated for empty content: a Save with
`content = ""` is not rejected — it succeeds and writes to both stores. -/
theorem empty_content_counterexample :
    (Mcp.memory_save ⟨true, true, true⟩ ⟨[], []⟩ (some "") none none none 7 0).1 = .ok (7, 0)
    ∧ (Mcp.memory_save ⟨true, true, true⟩ ⟨[], []⟩ (some "") none none none 7 0).2.pg.countP
        (fun e => e.id == 7) = 1
    ∧ (Mcp.memory_save ⟨true, true, true⟩ ⟨[], []⟩ (some "") none none none 7 0).2.os.countP
        (fun d => d.id == 7) = 1 :=
  ⟨rfl, rfl, rfl⟩

/-- Claim C9: an Update supplying none of content/summary/importance/tags on
an existing record refreshes the index row's `updated_at` and leaves every
other index field unchanged, and leaves the content, summary, importance and
tags of every stored document unchanged. -/
theorem update_empty_frame (o : UpdateOutcome) (st : DualStore) (id : Nat) (now : Timestamp)
    (h1 : o.pgUpdateOk = true) (h2 : st.pg.countP (fun e => e.id == id) ≠ 0) :
    (Main.memory_update o st ⟨id, none, none, none, none⟩ now).1 = .ok (id, now)
    ∧ (Main.memory_update o st ⟨id, none, none, none, none⟩ now).2.pg
        = st.pg.map (fun e => if e.id == id then { e with updated_at := now } else e)
    ∧ ∀ d, d ∈ (Main.memory_update o st ⟨id, none, none, none, none⟩ now).2.os →
        ∃ d0, d0 ∈ st.os ∧ d.id = d0.id ∧ d.content = d0.content ∧ d.summary = d0.summary
          ∧ d.importance_score = d0.importance_score ∧ d.tags = d0.tags := by
  refine ⟨memory_update_res o st ⟨id, none, none, none, none⟩ now h1 h2, ?_, ?_⟩
  · rw [memory_update_pg o st ⟨id, none, none, none, none⟩ now h1 h2]
    rfl
  · intro d hd
    rcases memory_update_os_mem o st ⟨id, none, none, none, none⟩ now d hd with h | ⟨doc, hdoc, hmerge⟩
    · exact ⟨d, h, rfl, rfl, rfl, rfl, rfl⟩
    · exact ⟨doc, hdoc, by rw [hmerge], by rw [hmerge]; rfl, by rw [hmerge]; rfl,
        by rw [hmerge]; rfl, by rw [hmerge]; rfl⟩

/-- Concrete instance of `update_empty_frame` on a one-record store. -/
theorem update_empty_frame_witness :
    (Main.memory_update ⟨true, true, true⟩
        ⟨[⟨7, none, some "s", 0.5, ["t"], 3, 3⟩], [⟨7, none, "body", some "s", 0.5, ["t"], 3, 3⟩]⟩
        ⟨7, none, none, none, none⟩ 9).1 = .ok (7, 9)
    ∧ (Main.memory_update ⟨true, true, true⟩
        ⟨[⟨7, none, some "s", 0.5, ["t"], 3, 3⟩], [⟨7, none, "body", some "s", 0.5, ["t"], 3, 3⟩]⟩
        ⟨7, none, none, none, none⟩ 9).2.pg
        = [⟨7, none, some "s", 0.5, ["t"], 3, 3⟩].map
            (fun e => if e.id == 7 then { e with updated_at := 9 } else e)
    ∧ ∀ d, d ∈ (Main.memory_update ⟨true, true, true⟩
        ⟨[⟨7, none, some "s", 0.5, ["t"], 3, 3⟩], [⟨7, none, "body", some "s", 0.5, ["t"], 3, 3⟩]⟩
        ⟨7, none, none, none, none⟩ 9).2.os →
        ∃ d0, d0 ∈ [(⟨7, none, "body", some "s", 0.5, ["t"], 3, 3⟩ : MemoryDocument)]
          ∧ d.id = d0.id ∧ d.content = d0.content ∧ d.summary = d0.summary
          ∧ d.importance_score = d0.importance_score ∧ d.tags = d0.tags :=
  update_empty_frame ⟨true, true, true⟩
    ⟨[⟨7, none, some "s", 0.5, ["t"], 3, 3⟩], [⟨7, none, "body", some "s", 0.5, ["t"], 3, 3⟩]⟩
    7 9 rfl (by decide)

lemma resultLe_trans (a b c : SearchResult) (hab : Main.resultLe a b) (hbc : Main.resultLe b c) :
    Main.resultLe a c := by
  unfold Main.resultLe at hab hbc ⊢
  exact decide_eq_true (le_trans (of_decide_eq_true hbc) (of_decide_eq_true hab))

lemma resultLe_total (a b : SearchResult) : Main.resultLe a b || Main.resultLe b a := by
  unfold Main.resultLe
  rcases le_total b.score a.score with h | h
  · simp [h]
  · simp [h]

/-- Claim C6: a Search sorts the scored candidates by combined score in
descending order with a stable sort (candidates of equal score keep the
document store's relative order) and truncates the sorted list to `limit`. -/
theorem search_sort_truncate :
    (∀ (env : Main.SearchEnv) (req : Main.MemorySearchRequest),
      (Main.memory_search false false none env req).1.results
        = Main.rank_truncate (Main.clampedLimit req.limit) (Main.score_results env))
    ∧ ∀ (limit : Nat) (rs : List SearchResult),
      Main.rank_truncate limit rs = (rs.mergeSort Main.resultLe).take limit
      ∧ (rs.mergeSort Main.resultLe).Pairwise (fun a b => b.score ≤ a.score)
      ∧ (Main.rank_truncate limit rs).length ≤ limit
      ∧ ∀ s : ℝ, (rs.mergeSort Main.resultLe).filter (fun r => decide (r.score = s))
          = rs.filter (fun r => decide (r.score = s)) := by
  refine ⟨fun _ _ => rfl, fun limit rs => ⟨rfl, ?_, ?_, ?_⟩⟩
  · exact (List.sorted_mergeSort resultLe_trans resultLe_total rs).imp
      (fun h => of_decide_eq_true h)
  · show ((rs.mergeSort Main.resultLe).take limit).length ≤ limit
    rw [List.length_take]
    exact min_le_left _ _
  · intro s
    have hsub : List.Sublist (rs.filter (fun r => decide (r.score = s))) rs :=
      List.filter_sublist rs
    have hpw : (rs.filter (fun r => decide (r.score = s))).Pairwise
        (fun a b => Main.resultLe a b = true) := by
      apply List.pairwise_of_forall_mem_list
      intro a ha b hb
      have ha2 : a.score = s := of_decide_eq_true (List.mem_filter.mp ha).2
      have hb2 : b.score = s := of_decide_eq_true (List.mem_filter.mp hb).2
      unfold Main.resultLe
      exact decide_eq_true (by rw [ha2, hb2])
    have h1 : List.Sublist (rs.filter (fun r => decide (r.score = s)))
        (rs.mergeSort Main.resultLe) :=
      List.sublist_mergeSort resultLe_trans resultLe_total hpw hsub
    have h2 := h1.filter (fun r => decide (r.score = s))
    have hff : (rs.filter (fun r => decide (r.score = s))).filter (fun r => decide (r.score = s))
        = rs.filter (fun r => decide (r.score = s)) :=
      List.filter_eq_self.mpr (fun a ha => (List.mem_filter.mp ha).2)
    rw [hff] at h2
    have hperm : List.Perm ((rs.mergeSort Main.resultLe).filter (fun r => decide (r.score = s)))
        (rs.filter (fun r => decide (r.score = s))) :=
      (List.mergeSort_perm rs Main.resultLe).filter (fun r => decide (r.score = s))
    exact (h2.eq_of_length hperm.length_eq.symm).symm

/-- Claim C8: with a cache configured, a hit under the normalized key is
returned as-is with the cache unchanged and without consulting the stores;
a miss computes the result from the stores and caches it under the key with
a 300-second TTL; a cache read failure (or running without a cache, or a
write failure) leaves the returned result exactly the no-cache result. -/
theorem search_cache_behavior (cacheSetOk : Bool) (c : Main.CacheState) (env : Main.SearchEnv)
    (req : Main.MemorySearchRequest) :
    (∀ v, Main.cacheLookup c
        (Main.cache_key req.user_id req.query (Main.clampedLimit req.limit)) = some v →
      Main.memory_search true cacheSetOk (some c) env req = (⟨req.query, v⟩, some c))
    ∧ (Main.cacheLookup c
        (Main.cache_key req.user_id req.query (Main.clampedLimit req.limit)) = none →
      Main.memory_search true true (some c) env req
        = (⟨req.query, Main.rank_truncate (Main.clampedLimit req.limit) (Main.score_results env)⟩,
           some (Main.cacheSet c
             (Main.cache_key req.user_id req.query (Main.clampedLimit req.limit))
             (Main.rank_truncate (Main.clampedLimit req.limit) (Main.score_results env)) 300))
      ∧ Main.cacheLookup
          (Main.cacheSet c (Main.cache_key req.user_id req.query (Main.clampedLimit req.limit))
            (Main.rank_truncate (Main.clampedLimit req.limit) (Main.score_results env)) 300)
          (Main.cache_key req.user_id req.query (Main.clampedLimit req.limit))
        = some (Main.rank_truncate (Main.clampedLimit req.limit) (Main.score_results env)))
    ∧ (∀ gOk sOk, gOk = false ∨ Main.cacheLookup c
        (Main.cache_key req.user_id req.query (Main.clampedLimit req.limit)) = none →
      (Main.memory_search gOk sOk (some c) env req).1
        = (Main.memory_search gOk sOk none env req).1)
    ∧ (Main.memory_search false false none env req).1.results
        = Main.rank_truncate (Main.clampedLimit req.limit) (Main.score_results env) := by
  refine ⟨?_, ?_, ?_, rfl⟩
  · intro v hv
    unfold Main.memory_search
    dsimp only
    rw [if_pos rfl, hv]
  · intro hm
    constructor
    · unfold Main.memory_search
      dsimp only
      rw [if_pos rfl, hm]
      rfl
    · simp [Main.cacheLookup, Main.cacheSet]
  · intro gOk sOk h
    rcases h with h | h
    · subst h
      rfl
    · cases gOk
      · rfl
      · unfold Main.memory_search
        dsimp only
        rw [if_pos rfl, h]

/-- Concrete instance of `search_cache_behavior`: a hit on a one-entry cache
is returned unchanged. -/
theorem search_cache_behavior_witness :
    Main.memory_search true true
        (some [(Main.cache_key none "q" (Main.clampedLimit none), [], 42)])
        ⟨none, none, 0⟩ ⟨"q", none, none⟩
      = (⟨"q", []⟩, some [(Main.cache_key none "q" (Main.clampedLimit none), [], 42)]) :=
  (search_cache_behavior true [(Main.cache_key none "q" (Main.clampedLimit none), [], 42)]
      ⟨none, none, 0⟩ ⟨"q", none, none⟩).1 []
    (by simp [Main.cacheLookup])

end OpenMemory
